import Mathlib

/-!
Shallow embedding of the RAG-System core (backend/api/rag.py,
backend/module/milvus_service.py, backend/module/redis_service.py,
backend/module/models.py) and proofs about its behaviour.

External collaborators (the Milvus server, the Redis server, the embedding
and chat providers, the relational document store) are modelled as explicit
state values and outcome oracles; the control flow of the Python functions
is translated branch by branch.
-/

namespace RagSpec

/-- Constant `VECTOR_DIM` from `config/dev.py`: `int(os.getenv("VECTOR_DIM", "1536"))`,
the default vector dimension (module-level global of `milvus_service.py`). -/
def VECTOR_DIM : Nat := 1536

/-- A pymilvus `FieldSchema` as seen by `create_user_collection`:
its name and the dimension information of its `params`.
`dimParams = none` models a field object without a `params` attribute
(`hasattr(vector_field, 'params')` false); `dimParams = some dk` models a
`params` dict whose `'dim'` key holds `dk` (`dk = none` when the dict has no
`'dim'` key, so `params.get('dim', VECTOR_DIM)` falls back to the default). -/
structure FieldSchema where
  fieldName : String
  dimParams : Option (Option Nat)
deriving DecidableEq, Repr

/-- One row inserted by `collection.insert([document_ids, contents, vectors])`:
a document id tag, the chunk content and the embedding vector. -/
structure VectorEntry where
  documentId : Nat
  content : String
  vector : List Int
deriving DecidableEq, Repr

/-- A Milvus collection: its schema fields and its stored rows. -/
structure MilvusCollection where
  fields : List FieldSchema
  entries : List VectorEntry
deriving DecidableEq, Repr

/-- The Milvus server state: named collections (association list,
first match wins on lookup; names are unique in reachable states). -/
abbrev MilvusState := List (String × MilvusCollection)

/-- Look a collection up by name (`Collection(name=...)` / `utility.has_collection`). -/
def alookup : MilvusState → String → Option MilvusCollection
  | [], _ => none
  | (k, v) :: rest, key => if k = key then some v else alookup rest key

/-- Model of `utility.has_collection(collection_name)`. -/
def has_collection (s : MilvusState) (collection_name : String) : Bool :=
  (alookup s collection_name).isSome

/-- Model of `utility.drop_collection(collection_name)`. -/
def drop_collection (s : MilvusState) (collection_name : String) : MilvusState :=
  s.filter (fun p => p.1 != collection_name)

/-- The schema built at `milvus_service.py` lines 103-108: `id`, `document_id`,
`content` and a `FLOAT_VECTOR` field `vector` with `dim=actual_dim`. The three
non-vector fields carry a `params` dict without a `'dim'` key. -/
def standardFields (dim : Nat) : List FieldSchema :=
  [⟨"id", some none⟩, ⟨"document_id", some none⟩,
   ⟨"content", some none⟩, ⟨"vector", some (some dim)⟩]

/-- The loop at `milvus_service.py` lines 82-85: the first field named
`"vector"`, if any. -/
def findVectorField (fields : List FieldSchema) : Option FieldSchema :=
  fields.find? (fun f => f.fieldName == "vector")

/-- The configured dimension of a collection as far as it can be read from the
schema: the `'dim'` parameter of the `vector` field, when present. -/
def configuredDim (c : MilvusCollection) : Option Nat :=
  match findVectorField c.fields with
  | some f =>
    match f.dimParams with
    | some dk => dk
    | none => none
  | none => none

/-- Computes `collection_name`, the f-string over `user_id`. -/
def collectionNameFor (user_id : Nat) : String :=
  "docs_user_" ++ toString user_id

/-- Result of `create_user_collection`: the returned collection name, the new
Milvus state, and whether the call dropped respectively created a collection. -/
structure CollectionResult where
  name : String
  state : MilvusState
  dropped : Bool
  created : Bool
deriving DecidableEq, Repr

/-- Computes `actual_dim = vector_dim or VECTOR_DIM` (`milvus_service.py` line 70);
Python truthiness: both `None` and `0` fall back to `VECTOR_DIM`. -/
def actualDim (vector_dim : Option Nat) : Nat :=
  match vector_dim with
  | some d => if d = 0 then VECTOR_DIM else d
  | none => VECTOR_DIM

/-- Model of `create_user_collection(user_id, vector_dim)` from `milvus_service.py`
lines 68-127.  If the collection exists and its `vector` field has a `params`
attribute, the existing dimension is `params.get('dim', VECTOR_DIM)`; a
mismatch drops and recreates the collection, a match returns it untouched.
If the dimension information is unavailable (no `vector` field, or no
`params` attribute) the existing collection is returned as is.  Otherwise a
fresh collection is created. -/
def create_user_collection (s : MilvusState) (user_id : Nat)
    (vector_dim : Option Nat) : CollectionResult :=
  let collection_name := collectionNameFor user_id
  let actual_dim := actualDim vector_dim
  match alookup s collection_name with
  | some existing =>
    match findVectorField existing.fields with
    | some vf =>
      match vf.dimParams with
      | some dimKey =>
        let existing_dim := dimKey.getD VECTOR_DIM
        if existing_dim ≠ actual_dim then
          let s1 := drop_collection s collection_name
          ⟨collection_name, (collection_name, ⟨standardFields actual_dim, []⟩) :: s1,
            true, true⟩
        else
          ⟨collection_name, s, false, false⟩
      | none => ⟨collection_name, s, false, false⟩
    | none => ⟨collection_name, s, false, false⟩
  | none =>
    ⟨collection_name, (collection_name, ⟨standardFields actual_dim, []⟩) :: s,
      false, true⟩

/-- Model of `collection.insert([document_ids, contents, vectors])`: append the rows to
the named collection (a no-op on a state without that collection; the callers
only insert into a collection that exists). -/
def insertEntries : MilvusState → String → List VectorEntry → MilvusState
  | [], _, _ => []
  | (k, v) :: rest, collection_name, new =>
    if k = collection_name then
      (k, ⟨v.fields, v.entries ++ new⟩) :: insertEntries rest collection_name new
    else
      (k, v) :: insertEntries rest collection_name new

/-- Number of vectors in the user's collection tagged with the document id. -/
def countDocEntries (s : MilvusState) (user_id document_id : Nat) : Nat :=
  match alookup s (collectionNameFor user_id) with
  | none => 0
  | some c => (c.entries.filter (fun e => e.documentId == document_id)).length

theorem findVectorField_standardFields (dim : Nat) :
    findVectorField (standardFields dim) = some ⟨"vector", some (some dim)⟩ := rfl

theorem configuredDim_standardFields (dim : Nat) :
    configuredDim ⟨standardFields dim, []⟩ = some dim := rfl

/-- C2: for every user and probe dimension `d2`, if a collection for that user
already exists with configured dimension `d1` and `d2 ≠ d1`, then after
`create_user_collection(user_id, d2)` the user's collection has configured
dimension `d2` and contains zero pre-existing vectors; if `d1 = d2` the
existing collection is reused unchanged (a probe dimension is positive: the
caller only adopts `len(test_vector)` after checking `len(test_vector) > 0`). -/
theorem c2_dimension_reconciliation (s : MilvusState) (user_id d1 d2 : Nat)
    (c : MilvusCollection)
    (hc : alookup s (collectionNameFor user_id) = some c)
    (hdim : configuredDim c = some d1)
    (hpos : 0 < d2) :
    (d1 ≠ d2 →
      ∃ c2, alookup (create_user_collection s user_id (some d2)).state
          (collectionNameFor user_id) = some c2
        ∧ configuredDim c2 = some d2 ∧ c2.entries = [])
    ∧ (d1 = d2 → create_user_collection s user_id (some d2)
        = ⟨collectionNameFor user_id, s, false, false⟩) := by
  have hd2 : actualDim (some d2) = d2 := by simp [actualDim, hpos.ne']
  cases hf : findVectorField c.fields with
  | none => simp [configuredDim, hf] at hdim
  | some vf =>
    cases hp : vf.dimParams with
    | none => simp [configuredDim, hf, hp] at hdim
    | some dk =>
      have hdk : dk = some d1 := by simpa [configuredDim, hf, hp] using hdim
      subst hdk
      constructor
      · intro hne
        refine ⟨⟨standardFields d2, []⟩, ?_, rfl, rfl⟩
        simp [create_user_collection, hc, hf, hp, hd2, hne, alookup]
      · intro heq
        subst heq
        simp [create_user_collection, hc, hf, hp, hd2]

/-- Witness for C2 at a concrete state: one collection of configured
dimension 3 holding one vector, probed with dimension 4. -/
def collDim3 : MilvusCollection := ⟨standardFields 3, [⟨7, "old chunk", [1, 2, 3]⟩]⟩

/-- A Milvus state holding only user 1's dimension-3 collection. -/
def stateDim3 : MilvusState := [("docs_user_1", collDim3)]

theorem c2_witness :
    (3 ≠ 4 →
      ∃ c2, alookup (create_user_collection stateDim3 1 (some 4)).state
          (collectionNameFor 1) = some c2
        ∧ configuredDim c2 = some 4 ∧ c2.entries = [])
    ∧ (3 = 4 → create_user_collection stateDim3 1 (some 4)
        = ⟨collectionNameFor 1, stateDim3, false, false⟩) :=
  c2_dimension_reconciliation stateDim3 1 3 4 collDim3 (by decide) (by decide)
    (by decide)

/-- C8: calling `create_user_collection` a second time immediately after a
first call with the same `(user_id, vector_dim)` performs no destructive
action: the second call neither drops nor recreates the collection and leaves
the Milvus state exactly as the first call left it. -/
theorem c8_ensure_collection_idempotent (s : MilvusState) (user_id : Nat)
    (d : Option Nat) :
    (create_user_collection
        (create_user_collection s user_id d).state user_id d).state
      = (create_user_collection s user_id d).state
    ∧ (create_user_collection
        (create_user_collection s user_id d).state user_id d).dropped = false
    ∧ (create_user_collection
        (create_user_collection s user_id d).state user_id d).created = false := by
  cases h : alookup s (collectionNameFor user_id) with
  | none =>
    simp [create_user_collection, h, alookup, findVectorField_standardFields]
  | some existing =>
    cases hf : findVectorField existing.fields with
    | none => simp [create_user_collection, h, hf]
    | some vf =>
      cases hp : vf.dimParams with
      | none => simp [create_user_collection, h, hf, hp]
      | some dk =>
        by_cases hne : dk.getD VECTOR_DIM = actualDim d
        · simp [create_user_collection, h, hf, hp, hne]
        · simp [create_user_collection, h, hf, hp, hne, alookup,
            findVectorField_standardFields]

/-- C10 (amended): `create_user_collection` returns the existing collection
unchanged only when the schema's dimension is structurally unreadable, that
is, when no field is named `vector` or the `vector` field has no `params`
attribute; then no drop, no recreate and no reconciliation happens, for any
requested dimension. (When the `params` dict merely lacks the `dim` key, the
code instead substitutes the default `VECTOR_DIM` as the existing dimension
and reconciles against it, possibly destructively — see the counterexample.) -/
theorem c10_unreadable_schema_unchanged (s : MilvusState) (user_id : Nat)
    (d : Option Nat) (c : MilvusCollection)
    (hc : alookup s (collectionNameFor user_id) = some c)
    (hun : findVectorField c.fields = none ∨
      ∃ vf, findVectorField c.fields = some vf ∧ vf.dimParams = none) :
    create_user_collection s user_id d
      = ⟨collectionNameFor user_id, s, false, false⟩ := by
  rcases hun with hf | ⟨vf, hf, hp⟩
  · simp [create_user_collection, hc, hf]
  · simp [create_user_collection, hc, hf, hp]

/-- A collection whose `vector` field has a `params` dict without a `dim`
key: `params.get('dim', VECTOR_DIM)` silently reads the default 1536. -/
def collNoDimKey : MilvusCollection :=
  ⟨[⟨"id", some none⟩, ⟨"document_id", some none⟩, ⟨"content", some none⟩,
    ⟨"vector", some none⟩],
   [⟨7, "old chunk", [1, 2, 3, 4]⟩]⟩

/-- A Milvus state holding only user 1's `dim`-less collection. -/
def stateNoDimKey : MilvusState := [("docs_user_1", collNoDimKey)]

theorem c10_counterexample :
    configuredDim collNoDimKey = none
    ∧ (create_user_collection stateNoDimKey 1 (some 4)).dropped = true
    ∧ (create_user_collection stateNoDimKey 1 (some 4)).state ≠ stateNoDimKey
    ∧ alookup (create_user_collection stateNoDimKey 1 (some 4)).state
        "docs_user_1" = some ⟨standardFields 4, []⟩ := by decide

/-- A collection whose `vector` field object has no `params` attribute. -/
def collNoParamsAttr : MilvusCollection := ⟨[⟨"vector", none⟩], [⟨5, "kept", [1]⟩]⟩

/-- A Milvus state holding only user 2's attribute-less collection. -/
def stateNoParamsAttr : MilvusState := [("docs_user_2", collNoParamsAttr)]

theorem c10_witness :
    create_user_collection stateNoParamsAttr 2 (some 4)
      = ⟨collectionNameFor 2, stateNoParamsAttr, false, false⟩ :=
  c10_unreadable_schema_unchanged stateNoParamsAttr 2 (some 4) collNoParamsAttr
    (by decide) (Or.inr ⟨⟨"vector", none⟩, by decide, rfl⟩)

/-! Part 2: the ingestion pipeline (`process_document_async`, `rag.py` lines 131-334). -/

/-- The document record (`models.py` lines 90-108), restricted to the fields
the ingestion pipeline reads and writes. -/
structure Doc where
  id : Nat
  status : String
  error_message : Option String
deriving DecidableEq, Repr

/-- Outcome of one `embeddings.embed_query(...)` call: an exception, or a
returned vector (Python-side validity is `isinstance(vector, list) and
len(vector) > 0`, checked by the callers). -/
inductive EmbedOutcome where
  | exn : EmbedOutcome
  | ok : List Int → EmbedOutcome
deriving DecidableEq, Repr

/-- One text chunk produced by `process_document`, together with the
embedding provider's responses for it: the first `embed_query(content)` call
and, should that raise, the simplified retry `embed_query(content[:1000])`. -/
structure ChunkEnv where
  content : String
  firstTry : EmbedOutcome
  retryTry : EmbedOutcome
deriving DecidableEq, Repr

/-- The environment of one `process_document_async` run: module flags, the
storage paths of the uploaded file, the chunks with their embedding
outcomes, the dimension probe outcome, and the failure behaviour of the
external collaborators. -/
structure IngestEnv where
  /-- Flag `MILVUS_AVAILABLE` (`rag.py` lines 20-25). -/
  milvusAvailable : Bool
  /-- Whether `storage_result.get("local_path")` is set. -/
  hasLocalPath : Bool
  /-- Whether `storage_result.get("minio_path")` is set. -/
  hasMinioPath : Bool
  /-- Whether `process_document(...)` raises (caught by the outer handler). -/
  processDocRaises : Bool
  /-- Message of that exception (`str(e)`). -/
  processDocErr : String
  /-- The chunks `texts` returned by `process_document`. -/
  chunks : List ChunkEnv
  /-- Outcome of the dimension probe `embeddings.embed_query("测试文本")`. -/
  probe : EmbedOutcome
  /-- Value of the test `"nomic" in str(embedding_model_id).lower() or
  "ollama" in str(type(embeddings)).lower()` (`rag.py` line 275). -/
  isOllamaModel : Bool
  /-- The value of the module-global `VECTOR_DIM` of `rag.py` at entry. -/
  defaultDim : Nat
  /-- Whether the `Collection(...)`/`collection.load()` block raises. -/
  collectionOpRaises : Bool
  /-- Message of that exception. -/
  collectionOpErr : String
  /-- Whether `collection.insert(...)`/`collection.flush()` raises. -/
  insertRaises : Bool
  /-- Message of that exception. -/
  insertErr : String
deriving Repr

/-- Value of `error_message` set by the Milvus-unavailable branch (`rag.py` line 171). -/
def msgMilvusUnavailable : String := "Milvus服务不可用，文档已上传但未生成向量索引"

/-- Value of `error_message` set by the dead second Milvus check (`rag.py` line 204). -/
def msgMilvusUnavailable2 : String := "Milvus服务不可用，文档已处理但未生成向量索引"

/-- Value of `error_message` set when no storage path exists (`rag.py` line 194). -/
def msgNoStoragePath : String := "文档没有有效的存储路径"

/-- Value of `error_message` set when zero chunks embed (`rag.py` line 296). -/
def msgNoVectors : String := "向量生成失败，无法处理文档内容"

/-- The per-chunk body of the embedding loop (`rag.py` lines 251-290): the
vector kept for a chunk, or `none` when the chunk is skipped.  A returned
non-list/empty vector skips; an exception triggers the simplified Ollama
retry only for Ollama-like models, and a second failure skips. -/
def chunkVector (isOllama : Bool) (ch : ChunkEnv) : Option (List Int) :=
  match ch.firstTry with
  | EmbedOutcome.ok v => if 0 < v.length then some v else none
  | EmbedOutcome.exn =>
    if isOllama then
      match ch.retryTry with
      | EmbedOutcome.ok v => if 0 < v.length then some v else none
      | EmbedOutcome.exn => none
    else none

/-- The parallel lists `contents`/`vectors` built by the loop (`rag.py`
lines 247-290), as (content, vector) pairs in chunk order. -/
def validVectors (env : IngestEnv) : List (String × List Int) :=
  env.chunks.filterMap
    (fun ch => (chunkVector env.isOllamaModel ch).map (fun v => (ch.content, v)))

/-- Value of `actual_vector_dim` after the probe (`rag.py` lines 214-231): the probe
runs only when `len(texts) > 0`; a valid probe vector's length wins, any
failure keeps the default `VECTOR_DIM`. -/
def probedDim (env : IngestEnv) : Nat :=
  if env.chunks.isEmpty then env.defaultDim
  else
    match env.probe with
    | EmbedOutcome.ok v => if 0 < v.length then v.length else env.defaultDim
    | EmbedOutcome.exn => env.defaultDim

/-- Result of one `process_document_async` run: the final document record,
the sequence of committed document snapshots (`new_db_session.commit()`
calls that wrote the document), and the final Milvus state. -/
structure IngestResult where
  finalDoc : Option Doc
  commits : List Doc
  milvus : MilvusState
deriving Repr

/-- Model of `process_document_async(document_id, storage_result, embedding_model_id,
user_id, db_session)` (`rag.py` lines 131-334), as a function of the run
environment, the stored document record for `document_id` and the Milvus
state.  Branches in source order: missing document returns untouched; the
status is set to `processing` and committed; if `MILVUS_AVAILABLE` is false
the document is committed as `processed` with an explanatory
`error_message`; with no storage path it is committed as `failed`; a
`process_document` exception hits the outer handler, which commits `failed`
with `str(e)[:255]`; then the dimension probe and
`create_user_collection`/`Collection`/`load` block (failure commits
`failed`); then the embedding loop; zero valid vectors commit `failed`;
an insert failure commits `failed`; otherwise the rows are inserted and the
document is committed `processed` with `error_message` cleared. -/
def process_document_async (env : IngestEnv) (user_id document_id : Nat)
    (doc : Option Doc) (s : MilvusState) : IngestResult :=
  match doc with
  | none => ⟨none, [], s⟩
  | some doc0 =>
    let d1 : Doc := { doc0 with status := "processing" }
    if !env.milvusAvailable then
      let d2 : Doc := { d1 with
        status := "processed", error_message := some msgMilvusUnavailable }
      ⟨some d2, [d1, d2], s⟩
    else if !env.hasLocalPath && !env.hasMinioPath then
      let d2 : Doc := { d1 with
        status := "failed", error_message := some msgNoStoragePath }
      ⟨some d2, [d1, d2], s⟩
    else if env.processDocRaises then
      let d2 : Doc := { d1 with
        status := "failed", error_message := some (env.processDocErr.take 255) }
      ⟨some d2, [d1, d2], s⟩
    else if !env.milvusAvailable then
      let d2 : Doc := { d1 with
        status := "processed", error_message := some msgMilvusUnavailable2 }
      ⟨some d2, [d1, d2], s⟩
    else
      let cres := create_user_collection s user_id (some (probedDim env))
      if env.collectionOpRaises then
        let d2 : Doc := { d1 with
          status := "failed",
          error_message := some ("Milvus集合操作失败: " ++ env.collectionOpErr.take 200) }
        ⟨some d2, [d1, d2], cres.state⟩
      else
        let pairs := validVectors env
        if pairs.isEmpty then
          let d2 : Doc := { d1 with
            status := "failed", error_message := some msgNoVectors }
          ⟨some d2, [d1, d2], cres.state⟩
        else if env.insertRaises then
          let d2 : Doc := { d1 with
            status := "failed",
            error_message := some ("向量数据插入失败: " ++ env.insertErr.take 200) }
          ⟨some d2, [d1, d2], cres.state⟩
        else
          let s2 := insertEntries cres.state cres.name
            (pairs.map (fun p => ⟨document_id, p.1, p.2⟩))
          let d2 : Doc := { d1 with status := "processed", error_message := none }
          ⟨some d2, [d1, d2], s2⟩

theorem create_user_collection_name (s : MilvusState) (user_id : Nat)
    (d : Option Nat) :
    (create_user_collection s user_id d).name = collectionNameFor user_id := by
  cases h : alookup s (collectionNameFor user_id) with
  | none => simp [create_user_collection, h]
  | some existing =>
    cases hf : findVectorField existing.fields with
    | none => simp [create_user_collection, h, hf]
    | some vf =>
      cases hp : vf.dimParams with
      | none => simp [create_user_collection, h, hf, hp]
      | some dk =>
        by_cases hne : dk.getD VECTOR_DIM = actualDim d
        · simp [create_user_collection, h, hf, hp, hne]
        · simp [create_user_collection, h, hf, hp, hne]

theorem create_user_collection_exists (s : MilvusState) (user_id : Nat)
    (d : Option Nat) :
    ∃ c, alookup (create_user_collection s user_id d).state
        (collectionNameFor user_id) = some c := by
  cases h : alookup s (collectionNameFor user_id) with
  | none =>
    refine ⟨⟨standardFields (actualDim d), []⟩, ?_⟩
    simp [create_user_collection, h, alookup]
  | some existing =>
    cases hf : findVectorField existing.fields with
    | none => exact ⟨existing, by simp [create_user_collection, h, hf]⟩
    | some vf =>
      cases hp : vf.dimParams with
      | none => exact ⟨existing, by simp [create_user_collection, h, hf, hp]⟩
      | some dk =>
        by_cases hne : dk.getD VECTOR_DIM = actualDim d
        · exact ⟨existing, by simp [create_user_collection, h, hf, hp, hne]⟩
        · refine ⟨⟨standardFields (actualDim d), []⟩, ?_⟩
          simp [create_user_collection, h, hf, hp, hne, alookup]

theorem alookup_insertEntries_self (s : MilvusState) (name : String)
    (new : List VectorEntry) :
    alookup (insertEntries s name new) name
      = (alookup s name).map (fun c => ⟨c.fields, c.entries ++ new⟩) := by
  induction s with
  | nil => rfl
  | cons head tail ih =>
    obtain ⟨k, v⟩ := head
    by_cases h : k = name
    · subst h
      simp [insertEntries, alookup]
    · simp [insertEntries, alookup, h, ih]

theorem countDocEntries_pos_after_insert (s : MilvusState)
    (user_id document_id : Nat) (pairs : List (String × List Int))
    (hne : pairs ≠ []) (c : MilvusCollection)
    (hc : alookup s (collectionNameFor user_id) = some c) :
    0 < countDocEntries
      (insertEntries s (collectionNameFor user_id)
        (pairs.map (fun p => ⟨document_id, p.1, p.2⟩))) user_id document_id := by
  unfold countDocEntries
  rw [alookup_insertEntries_self, hc]
  have hlen : 0 < pairs.length := List.length_pos.mpr hne
  simp [List.filter_append, List.filter_map, Function.comp]
  refine Or.inr ?_
  have hpred : ((fun (e : VectorEntry) => e.documentId == document_id) ∘
      fun (p : String × List Int) =>
        ({ documentId := document_id, content := p.1, vector := p.2 } : VectorEntry))
      = fun _ => true := by
    funext p
    simp
  rw [hpred]
  simpa using hlen

/-- C1 (amended): when the Milvus service is available, a document the
pipeline leaves as `processed` has at least one vector tagged with its id in
the vector store, and when zero chunks yield a valid embedding vector the
document is set to `failed` with a descriptive error.  (When Milvus is
unavailable, `rag.py` lines 167-173 instead mark the document `processed`
with an explanatory `error_message` and no vectors — see the
counterexample.) -/
theorem c1_processed_implies_indexed (env : IngestEnv)
    (user_id document_id : Nat) (doc : Doc) (s : MilvusState)
    (hM : env.milvusAvailable = true) :
    (∀ d2,
      (process_document_async env user_id document_id (some doc) s).finalDoc
          = some d2 →
      d2.status = "processed" →
      0 < countDocEntries
          (process_document_async env user_id document_id (some doc) s).milvus
          user_id document_id)
    ∧ (validVectors env = [] →
      ∃ d2,
        (process_document_async env user_id document_id (some doc) s).finalDoc
            = some d2
          ∧ d2.status = "failed" ∧ d2.error_message ≠ none) := by
  constructor
  · intro d2 hfd hst
    by_cases hB : (!env.hasLocalPath && !env.hasMinioPath) = true
    · simp [process_document_async, hM, hB] at hfd
      subst hfd
      simp at hst
    · by_cases hP : env.processDocRaises = true
      · simp [process_document_async, hM, hB, hP] at hfd
        subst hfd
        simp at hst
      · by_cases hC : env.collectionOpRaises = true
        · simp [process_document_async, hM, hB, hP, hC] at hfd
          subst hfd
          simp at hst
        · by_cases hV : (validVectors env).isEmpty = true
          · simp [process_document_async, hM, hB, hP, hC, hV] at hfd
            subst hfd
            simp at hst
          · by_cases hI : env.insertRaises = true
            · simp [process_document_async, hM, hB, hP, hC, hV, hI] at hfd
              subst hfd
              simp at hst
            · have hmv :
                  (process_document_async env user_id document_id (some doc) s).milvus
                    = insertEntries
                        (create_user_collection s user_id
                          (some (probedDim env))).state
                        (collectionNameFor user_id)
                        ((validVectors env).map
                          (fun p => ⟨document_id, p.1, p.2⟩)) := by
                simp [process_document_async, hM, hB, hP, hC, hV, hI,
                  create_user_collection_name]
              rw [hmv]
              obtain ⟨c, hc⟩ :=
                create_user_collection_exists s user_id (some (probedDim env))
              refine countDocEntries_pos_after_insert _ user_id document_id _
                ?_ c hc
              simpa using hV
  · intro hvv
    have hV : (validVectors env).isEmpty = true := by simp [hvv]
    by_cases hB : (!env.hasLocalPath && !env.hasMinioPath) = true
    · exact ⟨⟨doc.id, "failed", some msgNoStoragePath⟩,
        by simp [process_document_async, hM, hB], rfl, by simp⟩
    · by_cases hP : env.processDocRaises = true
      · exact ⟨⟨doc.id, "failed", some (env.processDocErr.take 255)⟩,
          by simp [process_document_async, hM, hB, hP], rfl, by simp⟩
      · by_cases hC : env.collectionOpRaises = true
        · exact ⟨⟨doc.id, "failed",
              some ("Milvus集合操作失败: " ++ env.collectionOpErr.take 200)⟩,
            by simp [process_document_async, hM, hB, hP, hC], rfl, by simp⟩
        · exact ⟨⟨doc.id, "failed", some msgNoVectors⟩,
            by simp [process_document_async, hM, hB, hP, hC, hV], rfl, by simp⟩

/-- A run environment in which the Milvus service is unavailable
(`MILVUS_AVAILABLE = False`, `rag.py` lines 20-25). -/
def envMilvusDown : IngestEnv :=
  { milvusAvailable := false, hasLocalPath := true, hasMinioPath := false,
    processDocRaises := false, processDocErr := "", chunks := [],
    probe := EmbedOutcome.exn, isOllamaModel := false, defaultDim := 1536,
    collectionOpRaises := false, collectionOpErr := "", insertRaises := false,
    insertErr := "" }

/-- A fully healthy run environment: Milvus available, one chunk that embeds
to a 3-dimensional vector, probe succeeds, no collaborator failure. -/
def envHappy : IngestEnv :=
  { milvusAvailable := true, hasLocalPath := true, hasMinioPath := false,
    processDocRaises := false, processDocErr := "",
    chunks := [⟨"hello world", EmbedOutcome.ok [1, 2, 3], EmbedOutcome.exn⟩],
    probe := EmbedOutcome.ok [1, 2, 3], isOllamaModel := false,
    defaultDim := 1536, collectionOpRaises := false, collectionOpErr := "",
    insertRaises := false, insertErr := "" }

/-- A freshly uploaded document record (`rag.py` lines 410-416):
`status="pending"`, no error message. -/
def docPending : Doc := ⟨1, "pending", none⟩

theorem c1_counterexample :
    (process_document_async envMilvusDown 1 1 (some docPending) []).finalDoc
        = some ⟨1, "processed", some msgMilvusUnavailable⟩
    ∧ countDocEntries
        (process_document_async envMilvusDown 1 1 (some docPending) []).milvus
        1 1 = 0 := by
  decide

theorem c1_witness :
    0 < countDocEntries
        (process_document_async envHappy 1 1 (some docPending) []).milvus 1 1 :=
  (c1_processed_implies_indexed envHappy 1 1 docPending [] rfl).1
    ⟨1, "processed", none⟩ (by decide) rfl

/-- C3 (amended): when the Milvus service is available and the document
enters the pipeline with a null `error_message` (as the upload handler
creates it), after every state the pipeline commits, `error_message` is
non-null if and only if `status = "failed"`.  (When Milvus is unavailable,
`rag.py` lines 169-172 commit `status="processed"` together with a non-null
`error_message` — see the counterexample.) -/
theorem c3_error_iff_failed (env : IngestEnv) (user_id document_id : Nat)
    (doc : Doc) (s : MilvusState) (hM : env.milvusAvailable = true)
    (hE : doc.error_message = none) :
    ∀ d2 ∈ (process_document_async env user_id document_id (some doc) s).commits,
      (d2.error_message ≠ none ↔ d2.status = "failed") := by
  intro d2 hd2
  by_cases hB : (!env.hasLocalPath && !env.hasMinioPath) = true
  · simp [process_document_async, hM, hB] at hd2
    rcases hd2 with h | h <;> subst h <;> simp [hE]
  · by_cases hP : env.processDocRaises = true
    · simp [process_document_async, hM, hB, hP] at hd2
      rcases hd2 with h | h <;> subst h <;> simp [hE]
    · by_cases hC : env.collectionOpRaises = true
      · simp [process_document_async, hM, hB, hP, hC] at hd2
        rcases hd2 with h | h <;> subst h <;> simp [hE]
      · by_cases hV : (validVectors env).isEmpty = true
        · simp [process_document_async, hM, hB, hP, hC, hV] at hd2
          rcases hd2 with h | h <;> subst h <;> simp [hE]
        · by_cases hI : env.insertRaises = true
          · simp [process_document_async, hM, hB, hP, hC, hV, hI] at hd2
            rcases hd2 with h | h <;> subst h <;> simp [hE]
          · simp [process_document_async, hM, hB, hP, hC, hV, hI] at hd2
            rcases hd2 with h | h <;> subst h <;> simp [hE]

theorem c3_counterexample :
    (process_document_async envMilvusDown 1 1 (some docPending) []).finalDoc
        = some ⟨1, "processed", some msgMilvusUnavailable⟩
    ∧ (⟨1, "processed", some msgMilvusUnavailable⟩ : Doc).error_message ≠ none
    ∧ (⟨1, "processed", some msgMilvusUnavailable⟩ : Doc).status ≠ "failed" := by
  decide

theorem c3_witness :
    (⟨1, "processed", none⟩ : Doc).error_message ≠ none
      ↔ (⟨1, "processed", none⟩ : Doc).status = "failed" :=
  c3_error_iff_failed envHappy 1 1 docPending [] rfl rfl
    ⟨1, "processed", none⟩ (by decide)

/-- C5 (amended): the background task transitions any existing document to
`processing` unconditionally — it never observes the current status, so the
first committed snapshot of every run sets `status = "processing"` whatever
the document's status was (`rag.py` lines 153-161); in particular two
duplicate triggers for the same document both perform that transition, and
neither no-ops. -/
theorem c5_processing_unconditional (env : IngestEnv)
    (user_id document_id : Nat) (doc : Doc) (s : MilvusState) :
    (process_document_async env user_id document_id (some doc) s).commits.head?
      = some { doc with status := "processing" } := by
  by_cases hM : env.milvusAvailable = true
  · by_cases hB : (!env.hasLocalPath && !env.hasMinioPath) = true
    · simp [process_document_async, hM, hB]
    · by_cases hP : env.processDocRaises = true
      · simp [process_document_async, hM, hB, hP]
      · by_cases hC : env.collectionOpRaises = true
        · simp [process_document_async, hM, hB, hP, hC]
        · by_cases hV : (validVectors env).isEmpty = true
          · simp [process_document_async, hM, hB, hP, hC, hV]
          · by_cases hI : env.insertRaises = true
            · simp [process_document_async, hM, hB, hP, hC, hV, hI]
            · simp [process_document_async, hM, hB, hP, hC, hV, hI]
  · simp only [Bool.not_eq_true] at hM
    simp [process_document_async, hM]

/-- A document already in the terminal status `processed` — not `pending`. -/
def docAlreadyProcessed : Doc := ⟨1, "processed", none⟩

theorem c5_counterexample :
    docAlreadyProcessed.status ≠ "pending"
    ∧ (process_document_async envHappy 1 1 (some docAlreadyProcessed) []).commits.head?
        = some ⟨1, "processing", none⟩ := by
  decide

/-! Part 3: the answer cache (`redis_service.py` lines 41-71). -/

/-- The Redis key-value store, restricted to the QA cache keys: an
association list where the most recent `SET` is listed first (last write
wins, TTL elapse not modelled within one interaction). -/
abbrev RedisState := List (String × String)

/-- Model of Redis `GET`. -/
def rlookup : RedisState → String → Option String
  | [], _ => none
  | (k, v) :: rest, key => if k = key then some v else rlookup rest key

/-- Computes `cache_key = f"qa:cache:{hashlib.md5(f'{user_id}:{question}'.encode())
.hexdigest()}"` (`redis_service.py` lines 46 and 59).  The md5 digest of the
pre-image `f"{user_id}:{question}"` is modelled by the pre-image itself:
the digest is a fixed deterministic function, so equal pre-images give equal
keys, and the concrete distinct pre-images used below have distinct
digests. -/
def cacheKey (user_id : Nat) (question : String) : String :=
  "qa:cache:" ++ toString user_id ++ ":" ++ question

/-- Model of `cache_qa_result(user_id, question, answer, expire)` (`redis_service.py`
lines 41-51): `redis_client.set(cache_key, answer, ex=expire)`. -/
def cache_qa_result (user_id : Nat) (question answer : String)
    (r : RedisState) : RedisState :=
  (cacheKey user_id question, answer) :: r

/-- Model of `get_cached_qa_result(user_id, question)` (`redis_service.py` lines
54-71): `redis_client.get(cache_key)`, returning `None` on a missing key and
— through the `if cached_answer:` truthiness check on the returned bytes —
also on an empty stored value. -/
def get_cached_qa_result (user_id : Nat) (question : String)
    (r : RedisState) : Option String :=
  match rlookup r (cacheKey user_id question) with
  | some v => if v = "" then none else some v
  | none => none

/-- The whitespace-separated words of a character list (`cur` carries the
reversed current word). -/
def wsWords : List Char → List Char → List String
  | [], cur => if cur = [] then [] else [String.mk cur.reverse]
  | c :: cs, cur =>
    if c.isWhitespace then
      if cur = [] then wsWords cs []
      else String.mk cur.reverse :: wsWords cs []
    else wsWords cs (c :: cur)

/-- Join words with single spaces. -/
def joinSpace : List String → String
  | [] => ""
  | [w] => w
  | w :: ws => w ++ " " ++ joinSpace ws

/-- Trim and collapse whitespace: the question normalization that the spec
describes for cache-key computation (stated only to compare questions; the
source computes no such normalization). -/
def normalizeWhitespace (s : String) : String :=
  joinSpace (wsWords s.data [])

/-! Part 4: the query pipeline (`ask_question`, `rag.py` lines 624-833). -/

/-- Outcome of `search_similar_vectors(collection_name, query_vector, 5)`:
an exception (re-raised at `milvus_service.py` line 227), or the retrieved
hit contents in ranked order. -/
inductive SearchOutcome where
  | exn : SearchOutcome
  | ok : List String → SearchOutcome
deriving DecidableEq, Repr

/-- Outcome of `llm.invoke(prompt)` followed by content extraction and
`.strip()`: an exception, or the final answer text. -/
inductive GenOutcome where
  | exn : GenOutcome
  | ok : String → GenOutcome
deriving DecidableEq, Repr

/-- The environment of one `ask_question` call: the behaviour of the
embedding provider, of the Milvus reconciliation/search, of the chat
provider, of the Redis write and of the history commit. -/
structure QueryEnv where
  /-- Outcome of `embeddings.embed_query(request.question)`: `none` models an exception
  (the code then falls back to the placeholder vector `[0.1] * VECTOR_DIM`);
  `some d` models a returned query vector of length `d`. -/
  embedOutcome : Option Nat
  /-- Whether the `create_user_collection` call on the query path raises
  (`rag.py` lines 718-726). -/
  reconcileRaises : Bool
  /-- Outcome of the similarity search (`rag.py` line 734). -/
  search : SearchOutcome
  /-- Outcome of the generation call (`rag.py` lines 745-806). -/
  generation : GenOutcome
  /-- Whether the Redis `SET` inside `cache_qa_result` raises (swallowed there). -/
  cacheWriteFails : Bool
  /-- Whether the history `db.add`/`db.commit` raises (`rag.py` lines 826-827). -/
  historyWriteRaises : Bool
deriving Repr

/-- What `ask_question` hands back to FastAPI: a JSON answer (HTTP 200), or
an `HTTPException` with a status code. -/
inductive AskResult where
  | answer : String → AskResult
  | httpError : Nat → AskResult
deriving DecidableEq, Repr

/-- One `QAHistory` row (`models.py` lines 113-128). -/
structure QARecord where
  user_id : Nat
  question : String
  answer : String
deriving DecidableEq, Repr

/-- Result of one `ask_question` call: the HTTP-level result, the final
Milvus and Redis states, the appended history rows, and how many calls were
made to the embedding and generation providers. -/
structure AskOutcome where
  result : AskResult
  milvus : MilvusState
  redis : RedisState
  history : List QARecord
  embedCalls : Nat
  genCalls : Nat
deriving Repr

/-- Sentinel at `rag.py` line 651: answer for a user with no collection. -/
def msgNoDocumentsYet : String := "您还没有上传任何文档，请先上传文档后再提问。"

/-- Sentinel at `rag.py` line 726: answer when the query-path reconciliation fails. -/
def msgConfigError : String := "文档检索系统配置异常，请联系管理员。"

/-- Sentinel at `rag.py` line 808: answer when the retrieved context is empty. -/
def msgNothingFound : String := "没有找到相关内容。"

/-- Sentinel at `rag.py` line 813: answer when the generation call fails. -/
def msgGenerationError : String := "生成答案时发生错误，请稍后重试。"

/-- The tail of `ask_question` after an answer has been computed (`rag.py`
lines 815-830): the cache write (whose failure is swallowed inside
`cache_qa_result`), then the history insert and commit — which is NOT
guarded, so its exception escapes to the outer handler (`rag.py` lines
831-833) and becomes `HTTPException(500)`. -/
def finalizeAnswer (env : QueryEnv) (user_id : Nat)
    (question answer : String) (s : MilvusState) (r : RedisState)
    (ec gc : Nat) : AskOutcome :=
  let r2 := if env.cacheWriteFails then r else cache_qa_result user_id question answer r
  if env.historyWriteRaises then
    ⟨AskResult.httpError 500, s, r2, [], ec, gc⟩
  else
    ⟨AskResult.answer answer, s, r2, [⟨user_id, question, answer⟩], ec, gc⟩

/-- The search/context/generation phase of `ask_question` (`rag.py` lines
732-813): a search exception escapes to the outer handler (HTTP 500); a
non-empty concatenated context goes to the generation provider whose failure
yields the fixed apologetic sentinel; an empty context yields the
nothing-found sentinel without a generation call. -/
def searchAndAnswer (env : QueryEnv) (user_id : Nat) (question : String)
    (s : MilvusState) (r : RedisState) (ec : Nat) : AskOutcome :=
  match env.search with
  | SearchOutcome.exn => ⟨AskResult.httpError 500, s, r, [], ec, 0⟩
  | SearchOutcome.ok hits =>
    let context := String.join (hits.map (fun h => h ++ "\n"))
    if context ≠ "" then
      match env.generation with
      | GenOutcome.ok a => finalizeAnswer env user_id question a s r ec 1
      | GenOutcome.exn =>
        finalizeAnswer env user_id question msgGenerationError s r ec 1
    else
      finalizeAnswer env user_id question msgNothingFound s r ec 0

/-- Model of `ask_question(request, current_user, db)` (`rag.py` lines 624-833):
cache lookup (a truthy hit returns immediately with no provider call and no
state change); `utility.has_collection` check (a missing collection returns
the no-documents sentinel with no provider call); the question embedding
(one embedding-provider call; an exception falls back to the placeholder
vector and skips reconciliation); on embedding success the reconciliation
`create_user_collection(user_id, len(query_vector))` (an exception there
returns the config-error sentinel); then search, context assembly,
generation, cache write and history write. -/
def ask_question (env : QueryEnv) (user_id : Nat) (question : String)
    (r : RedisState) (s : MilvusState) : AskOutcome :=
  match get_cached_qa_result user_id question r with
  | some cached => ⟨AskResult.answer cached, s, r, [], 0, 0⟩
  | none =>
    if !(has_collection s (collectionNameFor user_id)) then
      ⟨AskResult.answer msgNoDocumentsYet, s, r, [], 0, 0⟩
    else
      match env.embedOutcome with
      | some qdim =>
        if env.reconcileRaises then
          ⟨AskResult.answer msgConfigError, s, r, [], 1, 0⟩
        else
          let cres := create_user_collection s user_id (some qdim)
          searchAndAnswer env user_id question cres.state r 1
      | none =>
        searchAndAnswer env user_id question s r 1

/-- C6: for a user with no vector collection and a question missing the
cache, `ask_question` returns the fixed no-documents sentinel and makes zero
embedding-provider and zero generation-provider calls (and changes no
state). -/
theorem c6_no_collection_sentinel (env : QueryEnv) (user_id : Nat)
    (q : String) (r : RedisState) (s : MilvusState)
    (hmiss : get_cached_qa_result user_id q r = none)
    (hnc : alookup s (collectionNameFor user_id) = none) :
    ask_question env user_id q r s
      = ⟨AskResult.answer msgNoDocumentsYet, s, r, [], 0, 0⟩ := by
  simp [ask_question, hmiss, has_collection, hnc]

/-- A query environment in which every collaborator succeeds. -/
def envQueryHappy : QueryEnv :=
  { embedOutcome := some 4, reconcileRaises := false,
    search := SearchOutcome.ok ["retrieved context"],
    generation := GenOutcome.ok "computed answer",
    cacheWriteFails := false, historyWriteRaises := false }

theorem c6_witness :
    ask_question envQueryHappy 1 "你好" [] []
      = ⟨AskResult.answer msgNoDocumentsYet, [], [], [], 0, 0⟩ :=
  c6_no_collection_sentinel envQueryHappy 1 "你好" [] [] rfl rfl

/-- C9: a question answered from the cache returns the cached answer and
leaves both the QA history and the Redis state untouched (and performs no
provider call). -/
theorem c9_cache_hit_frame (env : QueryEnv) (user_id : Nat) (q : String)
    (r : RedisState) (s : MilvusState) (a : String)
    (hhit : get_cached_qa_result user_id q r = some a) :
    ask_question env user_id q r s = ⟨AskResult.answer a, s, r, [], 0, 0⟩ := by
  simp [ask_question, hhit]

theorem c9_witness :
    ask_question envQueryHappy 1 "q1"
        (cache_qa_result 1 "q1" "cached answer" []) []
      = ⟨AskResult.answer "cached answer", [],
         cache_qa_result 1 "q1" "cached answer" [], [], 0, 0⟩ :=
  c9_cache_hit_frame envQueryHappy 1 "q1"
    (cache_qa_result 1 "q1" "cached answer" []) [] "cached answer" (by decide)

/-- C7 (amended): the cache key is computed from the user id and the RAW
question text — no whitespace normalization happens anywhere on the query
path — so the same raw question round-trips through
`cache_qa_result`/`get_cached_qa_result`, while whitespace variants map to
different entries (see the counterexample). -/
theorem c7_cache_key_raw_roundtrip (user_id : Nat) (q a : String)
    (r : RedisState) (ha : a ≠ "") :
    get_cached_qa_result user_id q (cache_qa_result user_id q a r) = some a := by
  simp [get_cached_qa_result, cache_qa_result, rlookup, ha]

theorem c7_counterexample :
    normalizeWhitespace "a b" = normalizeWhitespace "a  b"
    ∧ cacheKey 1 "a b" ≠ cacheKey 1 "a  b"
    ∧ get_cached_qa_result 1 "a  b"
        (cache_qa_result 1 "a b" "some answer" []) = none := by
  decide

theorem c7_witness :
    get_cached_qa_result 2 "what is this"
        (cache_qa_result 2 "what is this" "an answer" []) = some "an answer" :=
  c7_cache_key_raw_roundtrip 2 "what is this" "an answer" [] (by decide)

/-- C4 (amended): past a cache miss, PROVIDED the similarity search does not
raise and the history write does not raise, the caller always receives an
answer string: a generation failure yields the fixed apologetic sentinel,
and a cache-write failure never changes the returned result.  (A search
exception or a history-write exception escapes to the outer handler and
becomes `HTTPException(500)` instead of an answer — see the
counterexample.) -/
theorem c4_best_effort_answer (env : QueryEnv) (user_id : Nat) (q : String)
    (r : RedisState) (s : MilvusState)
    (hmiss : get_cached_qa_result user_id q r = none)
    (hsearch : env.search ≠ SearchOutcome.exn)
    (hhist : env.historyWriteRaises = false) :
    (∃ a, (ask_question env user_id q r s).result = AskResult.answer a)
    ∧ ((ask_question env user_id q r s).genCalls = 1 →
        env.generation = GenOutcome.exn →
        (ask_question env user_id q r s).result
          = AskResult.answer msgGenerationError)
    ∧ ((ask_question { env with cacheWriteFails := true } user_id q r s).result
        = (ask_question { env with cacheWriteFails := false } user_id q r s).result) := by
  cases hse : env.search with
  | exn => exact absurd hse hsearch
  | ok hits =>
    by_cases hcol : has_collection s (collectionNameFor user_id) = true <;>
      by_cases hrec : env.reconcileRaises = true <;>
        cases hemb : env.embedOutcome <;>
          cases hgen : env.generation <;>
            by_cases hctx : String.join (hits.map (fun h => h ++ "\n")) = "" <;>
              simp_all [ask_question, searchAndAnswer, finalizeAnswer]

/-- A Milvus state holding user 1's dimension-4 collection with one indexed
chunk. -/
def stateOneColl : MilvusState :=
  [("docs_user_1", ⟨standardFields 4, [⟨1, "chunk", [1, 2, 3, 4]⟩]⟩)]

/-- A query environment in which everything succeeds except the final
history commit. -/
def envHistoryRaises : QueryEnv :=
  { embedOutcome := some 4, reconcileRaises := false,
    search := SearchOutcome.ok ["retrieved context"],
    generation := GenOutcome.ok "computed answer",
    cacheWriteFails := false, historyWriteRaises := true }

theorem c4_counterexample :
    envHistoryRaises.generation = GenOutcome.ok "computed answer"
    ∧ (ask_question envHistoryRaises 1 "q" [] stateOneColl).result
        = AskResult.httpError 500 := by
  decide

theorem c4_witness :
    ∃ a, (ask_question envQueryHappy 1 "q" [] stateOneColl).result
        = AskResult.answer a :=
  (c4_best_effort_answer envQueryHappy 1 "q" [] stateOneColl rfl (by decide)
    rfl).1

end RagSpec
